import Mathlib

set_option maxRecDepth 4000

/- Shallow embedding of `src/packages/bridge/src/runtime/composables/router.ts`.

   The module is glue code over external collaborators (vue-router, ufo, h3,
   the nuxt app object).  Pure data types model the observable behaviour of
   each exported function; the external collaborators are either abstract
   function parameters (the `NavEnv` structure) or explicit boolean inputs
   (whether a component instance is active, whether the nuxt app object is
   reachable, whether the processing flag is set, client vs server build).
   Effectful code is modelled by returning an ordered trace of effects. -/

-- ## useRouter / useRoute (router.ts lines 12-38)

/-- Which router object a call to `useRouter` yields: the vue-router
composable result, or the legacy `nuxt2Context.app.router`. -/
inductive RouterHandle
  | vueRouter
  | legacyRouter
  deriving DecidableEq

/-- Which route object a call to `useRoute` yields.  `mirror id` stands for
the reactive mirror object (`reactive(nuxtApp.__route)`) allocated with
identity `id`; distinct ids are distinct JS objects. -/
inductive RouteHandle
  | vueRoute
  | mirror (id : Nat)
  deriving DecidableEq

/-- The fields of the nuxt app object touched by `useRoute`: the cached
`_route` mirror (by object identity), an allocator for fresh object
identities, and the number of `router.afterEach` sync hooks registered. -/
structure RouteState where
  _route : Option Nat
  nextId : Nat
  afterEachHooks : Nat
  deriving DecidableEq

/-- router.ts lines 12-18: prefer the vue-router composable when a component
instance is active, otherwise fall back to the legacy context router. -/
def useRouter (inst : Bool) : RouterHandle :=
  if inst then .vueRouter else .legacyRouter

/-- The state update of the first legacy `useRoute` access (router.ts lines
28-35): cache a freshly allocated mirror object and register one `afterEach`
sync hook. -/
def mirrorAlloc (st : RouteState) : RouteState :=
  { _route := some st.nextId, nextId := st.nextId + 1,
    afterEachHooks := st.afterEachHooks + 1 }

/-- router.ts lines 21-38: prefer the vue-router composable when a component
instance is active; otherwise lazily create the reactive mirror of the legacy
route on first access (also registering an `afterEach` sync hook) and return
the cached mirror afterwards.  The mirror's contents track
`nuxt2Context.app.context.route` through a getter plus the `afterEach`
assignment; only object identity and the caching protocol are modelled. -/
def useRoute (inst : Bool) (st : RouteState) : RouteHandle × RouteState :=
  if inst then (.vueRoute, st)
  else
    match st._route with
    | some m => (.mirror m, st)
    | none => (.mirror st.nextId, mirrorAlloc st)

-- ## convertToLegacyMiddleware (router.ts lines 45-59)

/-- Possible values a new-style middleware can resolve to
(`void | Error | string | Location | boolean | Route`).  `errVal` is a value
for which `result instanceof Error` holds. -/
inductive MWResult
  | errVal
  | undef
  | nullV
  | boolV (b : Bool)
  | strV (s : String)
  | locV (path : String)
  deriving DecidableEq

/-- The `result instanceof Error` test of router.ts line 51. -/
def isErrorRes : MWResult → Bool
  | .errVal => true
  | _ => false

/-- JS truthiness of a middleware result, as tested on router.ts line 54.
Error objects are truthy, `undefined`, `null`, `false` and the empty string
are falsy, everything else here is truthy. -/
def truthy : MWResult → Bool
  | .errVal => true
  | .undef => false
  | .nullV => false
  | .boolV b => b
  | .strV s => s != ""
  | .locV _ => true

/-- Behaviour of the awaited middleware call on router.ts line 49: it either
resolves with a result or throws. -/
inductive MWOutcome
  | ok (r : MWResult)
  | throws (msg : String)
  deriving DecidableEq

/-- What the adapted (legacy-interface) middleware does with the context
object after the awaited call: `ctx.error(result)`, `ctx.redirect(result)`,
plain return of the result, or propagation of an exception. -/
inductive LegacyAction
  | callError (r : MWResult)
  | callRedirect (r : MWResult)
  | returnResult (r : MWResult)
  | raised (msg : String)
  deriving DecidableEq

/-- One run of the adapted middleware: the value of
`ctx.$_nuxtApp._processingMiddleware` during the awaited call (line 48 sets
it), whether it is still set once the adapted middleware finishes (line 50
deletes it, but only on the non-throwing path), and the action taken. -/
structure LegacyRun where
  flagDuring : Bool
  flagAfter : Bool
  action : LegacyAction
  deriving DecidableEq

/-- router.ts lines 45-59.  The flag is assigned `true` before the awaited
call and deleted right after it; there is no try/finally, so when the
middleware throws the `delete` on line 50 is never reached and the flag
stays set.  Then: `instanceof Error` routes to `ctx.error`, any other truthy
result routes to `ctx.redirect`, and a falsy result is returned unchanged. -/
def convertToLegacyMiddleware (outcome : MWOutcome) : LegacyRun :=
  match outcome with
  | .throws m => { flagDuring := true, flagAfter := true, action := .raised m }
  | .ok r =>
      { flagDuring := true, flagAfter := false,
        action :=
          if isErrorRes r then .callError r
          else if truthy r then .callRedirect r
          else .returnResult r }

-- ## isProcessingMiddleware (router.ts lines 61-71)

/-- router.ts lines 61-71: `true` when the nuxt app reports the processing
flag, and also `true` when `useNuxtApp()` throws (the catch branch, reached
within an async middleware); `false` otherwise. -/
def isProcessingMiddleware (appAvailable flag : Bool) : Bool :=
  if appAvailable then flag else true

-- ## navigateTo (router.ts lines 98-153)

/-- A `RawLocation` argument: either a string path or a location object with
optional `path`, `query` and `hash` fields. -/
inductive RawLoc
  | str (s : String)
  | obj (path : Option String) (query : List (String × String)) (hash : Option String)
  deriving DecidableEq

/-- JS `x || d` for an optional string: `undefined` and the empty string are
falsy. -/
def jsOrStr : Option String → String → String
  | some s, d => if s = "" then d else s
  | none, d => d

/-- JS `s || d` for a plain string: the empty string is falsy. -/
def jsOrS (s d : String) : String := if s = "" then d else s

/-- JS `n || d` for an optional number: `undefined` and `0` are falsy. -/
def jsOrNat : Option Nat → Nat → Nat
  | some n, d => if n = 0 then d else n
  | none, d => d

/-- router.ts lines 99-101: `if (!to) { to = '/' }`.  A missing argument and
the empty string (both falsy) are replaced by the root path; location
objects are always truthy. -/
def normTo : Option RawLoc → RawLoc
  | none => .str "/"
  | some (.str s) => if s = "" then .str "/" else .str s
  | some (.obj p q h) => .obj p q h

/-- The external collaborators used by `navigateTo`, kept abstract: the ufo
URL helpers, the runtime-config base URL and the router's `resolve`
(yielding `.resolved.fullPath`). -/
structure NavEnv where
  baseURL : String
  hasProtocolRel : String → Bool
  protocol : String → Option String
  isScriptProtocol : String → Bool
  joinURL : String → String → String
  withQuery : String → List (String × String) → String
  resolveFullPath : RawLoc → String

/-- router.ts line 102: a string is used verbatim; an object becomes
`withQuery(to.path || '/', to.query || \x7b\x7d) + (to.hash || '')`. -/
def toPathOf (env : NavEnv) : RawLoc → String
  | .str s => s
  | .obj p q h => env.withQuery (jsOrStr p ("/")) q ++ (h.getD (""))

/-- A window-feature value (boolean or numeric). -/
inductive FeatureVal
  | boolV (b : Bool)
  | numV (n : Int)
  deriving DecidableEq

/-- JS template-literal rendering of a feature value. -/
def featureStr : FeatureVal → String
  | .boolV true => "true"
  | .boolV false => "false"
  | .numV n => toString n

/-- Kernel-reducible lowercasing, agreeing with JS `toLowerCase()` on the
ASCII feature names involved. -/
def lowerStr (s : String) : String := String.mk (s.data.map Char.toLower)

/-- router.ts lines 108-111: keep the entries whose value is not undefined,
render each as `lowercased-name=value`, and join with a comma and space. -/
def formatFeatures (fs : List (String × Option FeatureVal)) : String :=
  String.intercalate (", ")
    (fs.filterMap (fun kv => kv.2.map (fun v => lowerStr kv.1 ++ "=" ++ featureStr v)))

/-- The `open` option: defaults are applied by destructuring on line 106, so
only `undefined` (here `none`) triggers them. -/
structure OpenOpts where
  target : Option String := none
  windowFeatures : Option (List (String × Option FeatureVal)) := none
  deriving DecidableEq

/-- `NavigateToOptions`.  The source field `open` is named `openOpt` here
because `open` is reserved in Lean. -/
structure NavOptions where
  replace : Bool := false
  redirectCode : Option Nat := none
  external : Bool := false
  openOpt : Option OpenOpts := none
  deriving DecidableEq

/-- What the call evaluates to, in so far as the claims distinguish it: a
promise resolving to nothing interesting, the raw location returned for the
legacy middleware machinery, or the promise of `router.push/replace`. -/
inductive RetVal
  | promiseUnit
  | loc (l : RawLoc)
  | navPromise
  deriving DecidableEq

/-- Ordered observable effects of one `navigateTo` call. -/
inductive Effect
  | windowOpen (path target features : String)
  | throwErr (msg : String)
  | callHook (hname : String)
  | sendRedirect (location : String) (code : Nat)
  | locationReplace (path : String)
  | locationAssign (path : String)
  | routerReplace (target : RawLoc)
  | routerPush (target : RawLoc)
  | ret (v : RetVal)
  deriving DecidableEq

/-- The message thrown on router.ts line 121. -/
def extNotAllowedMsg : String :=
  "Navigating to an external URL is not allowed by default. Use `navigateTo(url, \x7b external: true \x7d)`."

/-- The message thrown on router.ts line 125, naming the offending
protocol. -/
def scriptProtoMsg (p : String) : String :=
  "Cannot navigate to a URL with \x27" ++ p ++ "\x27 protocol."

/-- router.ts line 124: `protocol && isScriptProtocol(protocol)` where
`protocol` is `parseURL(toPath).protocol` (possibly undefined, and falsy
when the empty string). -/
def scriptProtocolGuard (env : NavEnv) (toPath : String) : Bool :=
  match env.protocol toPath with
  | some p => (p != "") && env.isScriptProtocol p
  | none => false

/-- The protocol string interpolated into the line 125 message. -/
def protocolStr (env : NavEnv) (toPath : String) : String :=
  (env.protocol toPath).getD ("")

/-- router.ts lines 98-153, as an ordered effect trace.  `client` is the
build-time `process.client` / `import.meta.client` flag, `appAvailable` and
`flag` feed `isProcessingMiddleware`, `ssrEvent` tells whether
`nuxtApp.ssrContext?.event` exists on the server.  Branch order follows the
source: the `open` branch acts (client only) before any protocol check; then
the external opt-in check and the script-protocol check; then the
mid-middleware early return (client only); then the server hook-then-send
redirect when an SSR event exists (falling through otherwise); finally
`location.replace` / `location.href` for external targets and
`router.replace` / `router.push` otherwise. -/
def navigateTo (env : NavEnv) (client appAvailable flag ssrEvent : Bool)
    (toArg : Option RawLoc) (opts : NavOptions) : List Effect :=
  let t := normTo toArg
  let toPath := toPathOf env t
  let isExternal := opts.external || env.hasProtocolRel toPath
  let afterOpen : List Effect :=
    if isExternal && !opts.external then
      [.throwErr extNotAllowedMsg]
    else if isExternal && scriptProtocolGuard env toPath then
      [.throwErr (scriptProtoMsg (protocolStr env toPath))]
    else if client && !isExternal && isProcessingMiddleware appAvailable flag then
      [.ret (.loc t)]
    else if !client && ssrEvent then
      let redirectLocation :=
        if isExternal then toPath
        else env.joinURL env.baseURL (jsOrS (env.resolveFullPath t) ("/"))
      [.callHook ("app:redirected"),
       .sendRedirect redirectLocation (jsOrNat opts.redirectCode 302),
       .ret .promiseUnit]
    else if isExternal then
      if opts.replace then [.locationReplace toPath, .ret .promiseUnit]
      else [.locationAssign toPath, .ret .promiseUnit]
    else if opts.replace then [.routerReplace t, .ret .navPromise]
    else [.routerPush t, .ret .navPromise]
  match opts.openOpt with
  | some o =>
      if client then
        [.windowOpen toPath (o.target.getD ("_blank"))
           (formatFeatures (o.windowFeatures.getD [])),
         .ret .promiseUnit]
      else afterOpen
  | none => afterOpen

/-- Whether a trace contains a thrown exception. -/
def hasThrowEff (l : List Effect) : Bool :=
  l.any (fun e => match e with | .throwErr _ => true | _ => false)

-- ## abortNavigation (router.ts lines 156-170)

/-- The created error, keeping only the `fatal` field the branch on line 164
inspects. -/
structure NuxtError where
  fatal : Bool
  deriving DecidableEq

/-- The `err` argument: `string | Partial<NuxtError>`. -/
inductive ErrInput
  | str (s : String)
  | obj (fatal : Option Bool)
  deriving DecidableEq

/-- JS truthiness of the `err` argument (line 160 tests `!err`): the empty
string is falsy, every object is truthy. -/
def errInputTruthy : ErrInput → Bool
  | .str s => s != ""
  | .obj _ => true

/-- Outcome of `abortNavigation`: the dev-mode usage error of line 158, the
`return false` of line 160, or the created error thrown on line 169 together
with whether `showError` was invoked (line 164-167). -/
inductive AbortOutcome
  | usageError
  | returnedFalse
  | threwErr (e : NuxtError) (showErrorCalled : Bool)
  deriving DecidableEq

/-- router.ts lines 156-170.  `createErrorFn` abstracts `createError` from
the sibling error module; `dev` is `process.dev`.  The nuxt app is assumed
reachable in the fatal branch. -/
def abortNavigation (createErrorFn : ErrInput → NuxtError) (err : Option ErrInput)
    (dev appAvailable flag : Bool) : AbortOutcome :=
  if dev && !(isProcessingMiddleware appAvailable flag) then .usageError
  else
    match err with
    | none => .returnedFalse
    | some e =>
        if errInputTruthy e then
          .threwErr (createErrorFn e) (createErrorFn e).fatal
        else .returnedFalse

-- ## addRouteMiddleware (router.ts lines 185-192)

/-- A middleware function value, identified by object identity. -/
structure MW where
  id : Nat
  deriving DecidableEq

/-- A function stored in the middleware registry, by identity: either a
wrapper closure freshly returned by `convertToLegacyMiddleware` for a given
middleware (a new function object, never identical to its argument, taking
a legacy context), or the raw middleware value itself (possibly
`undefined`). -/
inductive StoredFn
  | adapted (m : Option MW)
  | plain (m : Option MW)
  deriving DecidableEq

/-- The identity of the function object returned by
`convertToLegacyMiddleware(m)`; its behaviour is modelled separately by
`convertToLegacyMiddleware` above. -/
def convertToLegacyMiddlewareFn (m : Option MW) : StoredFn := .adapted m

/-- The first argument of `addRouteMiddleware`: a name string or a
middleware function. -/
inductive NameArg
  | str (s : String)
  | fn (m : MW)
  deriving DecidableEq

/-- The `typeof name === 'function'` test of line 187. -/
def nameIsFn : NameArg → Bool
  | .fn _ => true
  | .str _ => false

/-- The `nuxtApp._middleware` registry: the global list and the named
map (as an association list). -/
structure MWRegistry where
  global : List StoredFn
  named : List (String × StoredFn)
  deriving DecidableEq

/-- router.ts lines 185-192.  When `options.global` is set or the first
argument is a function, the raw function value (`name` if it is a function,
else `middleware`) is pushed on the global list, unwrapped; otherwise the
named entry is set to the wrapper returned by `convertToLegacyMiddleware`.
The `.fn` case of the else branch is unreachable because the guard holds
whenever the first argument is a function. -/
def addRouteMiddleware (nameArg : NameArg) (middleware : Option MW) (globalOpt : Bool)
    (st : MWRegistry) : MWRegistry :=
  if globalOpt || nameIsFn nameArg then
    { st with global := st.global ++
        [StoredFn.plain (match nameArg with
          | .fn m => some m
          | .str _ => middleware)] }
  else
    match nameArg with
    | .str s => { st with named := st.named ++ [(s, convertToLegacyMiddlewareFn middleware)] }
    | .fn _ => st

-- ## A concrete environment for witnesses and counterexamples

/-- Kernel-reducible check that one character list starts with another. -/
def listStarts : List Char → List Char → Bool
  | [], _ => true
  | _ :: _, [] => false
  | c :: cs, d :: ds => (c == d) && listStarts cs ds

/-- Kernel-reducible check that string `s` starts with `pre`. -/
def strStarts (s pre : String) : Bool := listStarts pre.data s.data

/-- A concrete `NavEnv` agreeing with the real ufo helpers on every input
used below: absolute http(s), javascript and protocol-relative URLs have a
protocol, `parseURL` yields the scheme with its trailing colon,
`javascript:` is a script protocol, `joinURL` concatenates (correct for the
inputs used), and the router resolves every location to `/resolved`. -/
def sampleEnv : NavEnv :=
  { baseURL := "/base"
  , hasProtocolRel := fun s =>
      strStarts s ("http://") || strStarts s ("https://")
        || strStarts s ("javascript:") || strStarts s ("//")
  , protocol := fun s =>
      if strStarts s ("https://") then some ("https:")
      else if strStarts s ("http://") then some ("http:")
      else if strStarts s ("javascript:") then some ("javascript:")
      else none
  , isScriptProtocol := fun p => p = "javascript:"
  , joinURL := fun a b => a ++ b
  , withQuery := fun p _ => p
  , resolveFullPath := fun _ => "/resolved" }

/-- Concrete window features for the witnesses: a set boolean, a set number
and an undefined entry (which the formatter must drop). -/
def sampleFeatures : List (String × Option FeatureVal) :=
  [("popup", some (.boolV true)), ("innerWidth", some (.numV 500)), ("top", none)]

/-- Concrete `open` option for the witnesses. -/
def sampleOpenOpts : OpenOpts := { windowFeatures := some sampleFeatures }

/-- Concrete `NavigateToOptions` carrying only the `open` option. -/
def sampleNavOpen : NavOptions := { openOpt := some sampleOpenOpts }

-- ## Theorems

/-- Claim C1, counterexample: registering a middleware globally by passing
only a function pushes the raw function onto the global list, not the
wrapper returned by `convertToLegacyMiddleware`, so the claim that the
globally pushed function is the adapted wrapper is false at this input. -/
theorem addRouteMiddleware_global_not_adapted :
    ¬ ((addRouteMiddleware (.fn ⟨5⟩) none false ⟨[], []⟩).global
        = [convertToLegacyMiddlewareFn (some ⟨5⟩)]) := by decide

/-- Claim C1 (amended): `addRouteMiddleware` stores named middleware wrapped
through `convertToLegacyMiddleware`, while middleware registered globally,
whether via the `global` option or by passing only a function, is pushed
onto the global list unwrapped, as the raw function value. -/
theorem addRouteMiddleware_registration :
    (∀ (s : String) (m : MW) (st : MWRegistry),
        addRouteMiddleware (.str s) (some m) false st
          = { st with named := st.named ++ [(s, convertToLegacyMiddlewareFn (some m))] }) ∧
    (∀ (m : MW) (mw : Option MW) (g : Bool) (st : MWRegistry),
        addRouteMiddleware (.fn m) mw g st
          = { st with global := st.global ++ [StoredFn.plain (some m)] }) ∧
    (∀ (s : String) (mw : Option MW) (st : MWRegistry),
        addRouteMiddleware (.str s) mw true st
          = { st with global := st.global ++ [StoredFn.plain mw] }) := by
  refine ⟨?_, ?_, ?_⟩ <;> intros <;> simp [addRouteMiddleware, nameIsFn]

/-- Claim C2: the adapted middleware calls `ctx.error(result)` exactly when
the awaited result is an Error, calls `ctx.redirect(result)` exactly when
the result is a non-Error truthy value (including `true`), and otherwise
returns the falsy result unchanged. -/
theorem convertToLegacyMiddleware_dispatch (r : MWResult) :
    ((convertToLegacyMiddleware (.ok r)).action = .callError r ↔ isErrorRes r = true) ∧
    ((convertToLegacyMiddleware (.ok r)).action = .callRedirect r ↔
      (isErrorRes r = false ∧ truthy r = true)) ∧
    ((convertToLegacyMiddleware (.ok r)).action = .returnResult r ↔
      (isErrorRes r = false ∧ truthy r = false)) := by
  cases r with
  | errVal => simp [convertToLegacyMiddleware, isErrorRes, truthy]
  | undef => simp [convertToLegacyMiddleware, isErrorRes, truthy]
  | nullV => simp [convertToLegacyMiddleware, isErrorRes, truthy]
  | boolV b => cases b <;> simp [convertToLegacyMiddleware, isErrorRes, truthy]
  | strV s =>
      by_cases hs : s = "" <;>
        simp [convertToLegacyMiddleware, isErrorRes, truthy, hs]
  | locV p => simp [convertToLegacyMiddleware, isErrorRes, truthy]

/-- Claim C3, counterexample: when the wrapped middleware throws, the
`delete` of the processing flag is never reached, so after the adapted
invocation the flag is still set, refuting the claim that it is no longer
set in the throwing case. -/
theorem processingFlag_survives_throw :
    ¬ ((convertToLegacyMiddleware (.throws ("boom"))).flagAfter = false) := by decide

/-- Claim C3 (amended): the processing flag is set during every adapted
invocation and is removed after the middleware resolves normally, but when
the wrapped middleware throws the flag remains set afterwards. -/
theorem convertToLegacyMiddleware_flag_lifecycle :
    (∀ r : MWResult, (convertToLegacyMiddleware (.ok r)).flagDuring = true ∧
        (convertToLegacyMiddleware (.ok r)).flagAfter = false) ∧
    (∀ m : String, (convertToLegacyMiddleware (.throws m)).flagDuring = true ∧
        (convertToLegacyMiddleware (.throws m)).flagAfter = true) := by
  constructor <;> intro x <;> simp [convertToLegacyMiddleware]

/-- Claim C4, counterexample: on the client, a call with the `open` option
and a protocol-bearing target but without `external: true` does not throw at
all; the `open` branch runs before the external opt-in check and opens a
window instead. -/
theorem navigateTo_open_skips_external_check :
    navigateTo sampleEnv true true false false (some (.str ("https://example.com")))
        { openOpt := some {} }
      = [Effect.windowOpen ("https://example.com") ("_blank") (""), Effect.ret .promiseUnit] ∧
    hasThrowEff (navigateTo sampleEnv true true false false
        (some (.str ("https://example.com"))) { openOpt := some {} }) = false := by
  decide

/-- Claim C4 (amended): whenever the `open` branch is not taken (the option
is absent, or the build is not client-side), a target whose path has a
protocol and no `external: true` opt-in makes `navigateTo` throw the
opt-in error, with no navigation, hook call or redirect. -/
theorem navigateTo_external_requires_optin (env : NavEnv)
    (client appAvailable flag ssrEvent : Bool) (toArg : Option RawLoc) (opts : NavOptions)
    (hext : opts.external = false)
    (hproto : env.hasProtocolRel (toPathOf env (normTo toArg)) = true)
    (hopen : opts.openOpt = none ∨ client = false) :
    navigateTo env client appAvailable flag ssrEvent toArg opts
      = [Effect.throwErr extNotAllowedMsg] := by
  unfold navigateTo
  rcases hopen with h | h
  · simp [h, hext, hproto]
  · cases ho : opts.openOpt <;> simp [h, ho, hext, hproto]

/-- Claim C4, witness for the amended theorem at a concrete input. -/
theorem navigateTo_external_requires_optin_witness :
    ({} : NavOptions).external = false ∧
    sampleEnv.hasProtocolRel
      (toPathOf sampleEnv (normTo (some (.str ("https://example.com"))))) = true ∧
    navigateTo sampleEnv true true false false (some (.str ("https://example.com"))) {}
      = [Effect.throwErr extNotAllowedMsg] :=
  ⟨rfl, by decide,
    navigateTo_external_requires_optin sampleEnv true true false false
      (some (.str ("https://example.com"))) {} rfl (by decide) (Or.inl rfl)⟩

/-- Claim C5, counterexample: on the client, a `javascript:` URL passed with
`external: true` together with the `open` option is not rejected; the `open`
branch precedes the script-protocol check and opens a window on the script
URL. -/
theorem navigateTo_open_skips_script_check :
    navigateTo sampleEnv true true false false (some (.str ("javascript:alert(1)")))
        { external := true, openOpt := some {} }
      = [Effect.windowOpen ("javascript:alert(1)") ("_blank") (""), Effect.ret .promiseUnit] ∧
    hasThrowEff (navigateTo sampleEnv true true false false
        (some (.str ("javascript:alert(1)"))) { external := true, openOpt := some {} }) = false := by
  decide

/-- Claim C5 (amended): whenever the `open` branch is not taken, a target
whose parsed protocol is a script-executing protocol makes `navigateTo`
with `external: true` throw the error naming that protocol, with no
navigation. -/
theorem navigateTo_script_protocol_rejected (env : NavEnv)
    (client appAvailable flag ssrEvent : Bool) (toArg : Option RawLoc) (opts : NavOptions)
    (p : String)
    (hext : opts.external = true)
    (hp : env.protocol (toPathOf env (normTo toArg)) = some p)
    (hpne : p ≠ "")
    (hscript : env.isScriptProtocol p = true)
    (hopen : opts.openOpt = none ∨ client = false) :
    navigateTo env client appAvailable flag ssrEvent toArg opts
      = [Effect.throwErr (scriptProtoMsg p)] := by
  have hguard : scriptProtocolGuard env (toPathOf env (normTo toArg)) = true := by
    simp [scriptProtocolGuard, hp, hscript, hpne]
  have hps : protocolStr env (toPathOf env (normTo toArg)) = p := by
    simp [protocolStr, hp]
  unfold navigateTo
  rcases hopen with h | h
  · simp [h, hext, hguard, hps]
  · cases ho : opts.openOpt <;> simp [h, ho, hext, hguard, hps]

/-- Claim C5, witness for the amended theorem at a concrete input. -/
theorem navigateTo_script_protocol_rejected_witness :
    sampleEnv.protocol
      (toPathOf sampleEnv (normTo (some (.str ("javascript:alert(1)"))))) = some ("javascript:") ∧
    sampleEnv.isScriptProtocol ("javascript:") = true ∧
    navigateTo sampleEnv true true false false (some (.str ("javascript:alert(1)")))
        { external := true }
      = [Effect.throwErr (scriptProtoMsg ("javascript:"))] :=
  ⟨by decide, by decide,
    navigateTo_script_protocol_rejected sampleEnv true true false false
      (some (.str ("javascript:alert(1)"))) { external := true } ("javascript:")
      rfl (by decide) (by decide) (by decide) (Or.inl rfl)⟩

/-- Claim C6, counterexample: on the client, while middleware is being
processed, a call that also carries the `open` option does not return the
target location; the `open` branch runs first and opens a window. -/
theorem navigateTo_open_skips_middleware_return :
    navigateTo sampleEnv true true true false (some (.str ("/dest"))) { openOpt := some {} }
      = [Effect.windowOpen ("/dest") ("_blank") (""), Effect.ret .promiseUnit] ∧
    ¬ (navigateTo sampleEnv true true true false (some (.str ("/dest"))) { openOpt := some {} }
        = [Effect.ret (.loc (.str ("/dest")))]) := by
  decide

/-- Claim C6 (amended): on the client, without the `open` option, a
non-external target during middleware processing (flag set, or nuxt app
unreachable as within an async middleware) makes `navigateTo` return the
normalized target location itself, with no router push or replace. -/
theorem navigateTo_middleware_redirect_return (env : NavEnv)
    (appAvailable flag ssrEvent : Bool) (toArg : Option RawLoc) (opts : NavOptions)
    (hopen : opts.openOpt = none)
    (hext : opts.external = false)
    (hproto : env.hasProtocolRel (toPathOf env (normTo toArg)) = false)
    (hproc : isProcessingMiddleware appAvailable flag = true) :
    navigateTo env true appAvailable flag ssrEvent toArg opts
      = [Effect.ret (.loc (normTo toArg))] := by
  unfold navigateTo
  simp [hopen, hext, hproto, hproc]

/-- Claim C6, witness for the amended theorem at a concrete input. -/
theorem navigateTo_middleware_redirect_return_witness :
    isProcessingMiddleware true true = true ∧
    sampleEnv.hasProtocolRel (toPathOf sampleEnv (normTo (some (.str ("/dest"))))) = false ∧
    navigateTo sampleEnv true true true false (some (.str ("/dest"))) {}
      = [Effect.ret (.loc (.str ("/dest")))] :=
  ⟨rfl, by decide,
    navigateTo_middleware_redirect_return sampleEnv true true false
      (some (.str ("/dest"))) {} rfl rfl (by decide) rfl⟩

/-- Claim C7, counterexample: the empty string is a falsy error argument, so
`abortNavigation('')` takes the `return false` branch instead of creating
and throwing the error the claim predicts. -/
theorem abortNavigation_empty_string_returns_false :
    abortNavigation (fun _ => ⟨true⟩) (some (.str (""))) false true true = .returnedFalse ∧
    ¬ (abortNavigation (fun _ => ⟨true⟩) (some (.str (""))) false true true
        = .threwErr ⟨true⟩ true) := by
  decide

/-- Claim C7 (amended): in development mode, calling `abortNavigation` while
no middleware is being processed throws the usage error; otherwise, for
every truthy error argument (a non-empty string or an object; the falsy
empty string instead returns `false`), the error is created, the
error-display hook is invoked exactly when the created error is fatal, and
the created error is thrown in both cases. -/
theorem abortNavigation_behavior (createErrorFn : ErrInput → NuxtError)
    (e : ErrInput) (dev appAvailable flag : Bool)
    (htruthy : errInputTruthy e = true) :
    (dev = true → isProcessingMiddleware appAvailable flag = false →
        abortNavigation createErrorFn (some e) dev appAvailable flag = .usageError) ∧
    (¬ (dev = true ∧ isProcessingMiddleware appAvailable flag = false) →
        abortNavigation createErrorFn (some e) dev appAvailable flag
          = .threwErr (createErrorFn e) (createErrorFn e).fatal) := by
  constructor
  · intro hd hp
    simp [abortNavigation, hd, hp]
  · intro hnot
    have hcond : (dev && !(isProcessingMiddleware appAvailable flag)) = false := by
      cases hd : dev <;> cases hp : isProcessingMiddleware appAvailable flag <;> simp_all
    simp [abortNavigation, hcond, htruthy]

/-- Claim C7, witness for the amended theorem at a concrete input. -/
theorem abortNavigation_behavior_witness :
    errInputTruthy (.obj (some true)) = true ∧
    abortNavigation (fun _ => ⟨true⟩) (some (.obj (some true))) false true true
      = .threwErr ⟨true⟩ true :=
  ⟨rfl,
    (abortNavigation_behavior (fun _ => ⟨true⟩) (.obj (some true)) false true true rfl).2
      (by simp)⟩

/-- Claim C8, counterexample: `redirectCode: 0` is falsy in JS, so the sent
status code is the 302 default rather than the given `options.redirectCode`,
refuting the claim that 302 is used only when no code is given. -/
theorem navigateTo_redirect_code_zero :
    navigateTo sampleEnv false true false true (some (.str ("/foo"))) { redirectCode := some 0 }
      = [Effect.callHook ("app:redirected"), Effect.sendRedirect ("/base/resolved") 302,
         Effect.ret .promiseUnit] ∧
    ¬ (navigateTo sampleEnv false true false true (some (.str ("/foo"))) { redirectCode := some 0 }
        = [Effect.callHook ("app:redirected"), Effect.sendRedirect ("/base/resolved") 0,
           Effect.ret .promiseUnit]) := by
  decide

/-- Claim C8 (amended): on the server with an SSR event, a `navigateTo`
call that passes the external checks awaits the `app:redirected` hook first
and only then sends the HTTP redirect (the trace order), targeting the
external path verbatim for external targets and otherwise the resolved full
path (or `/` when empty) joined onto the configured base URL, with the
status code from `options.redirectCode`, defaulting to 302 when the code is
absent or `0`. -/
theorem navigateTo_server_redirect (env : NavEnv)
    (appAvailable flag : Bool) (toArg : Option RawLoc) (opts : NavOptions)
    (hx : env.hasProtocolRel (toPathOf env (normTo toArg)) = true → opts.external = true)
    (hs : opts.external = true →
        scriptProtocolGuard env (toPathOf env (normTo toArg)) = false) :
    navigateTo env false appAvailable flag true toArg opts
      = [Effect.callHook ("app:redirected"),
         Effect.sendRedirect
           (if opts.external || env.hasProtocolRel (toPathOf env (normTo toArg))
            then toPathOf env (normTo toArg)
            else env.joinURL env.baseURL (jsOrS (env.resolveFullPath (normTo toArg)) ("/")))
           (jsOrNat opts.redirectCode 302),
         Effect.ret .promiseUnit] := by
  unfold navigateTo
  cases hext : opts.external with
  | true =>
      have hg := hs hext
      cases ho : opts.openOpt <;> simp [ho, hext, hg]
  | false =>
      have hpr : env.hasProtocolRel (toPathOf env (normTo toArg)) = false := by
        cases hh : env.hasProtocolRel (toPathOf env (normTo toArg))
        · rfl
        · exact absurd (hx hh) (by simp [hext])
      cases ho : opts.openOpt <;> simp [ho, hext, hpr]

/-- Claim C8, witness for the amended theorem at a concrete input. -/
theorem navigateTo_server_redirect_witness :
    navigateTo sampleEnv false true false true (some (.str ("/foo"))) { redirectCode := some 301 }
      = [Effect.callHook ("app:redirected"), Effect.sendRedirect ("/base/resolved") 301,
         Effect.ret .promiseUnit] := by
  have h := navigateTo_server_redirect sampleEnv true false (some (.str ("/foo")))
      { redirectCode := some 301 } (by decide) (by decide)
  exact h

/-- Claim C9: `useRouter` and `useRoute` come from the vue-router
composables exactly when a component instance is active; otherwise they fall
back to the legacy context, with `useRoute` allocating the reactive mirror
of the legacy route only on the first such access (also registering the
`afterEach` sync hook) and returning the same mirror object, with unchanged
state, on every later access. -/
theorem useRoute_useRouter_resolution :
    useRouter true = RouterHandle.vueRouter ∧
    useRouter false = RouterHandle.legacyRouter ∧
    (∀ st : RouteState, useRoute true st = (RouteHandle.vueRoute, st)) ∧
    (∀ st : RouteState, st._route = none →
        useRoute false st = (RouteHandle.mirror st.nextId, mirrorAlloc st) ∧
        useRoute false (mirrorAlloc st)
          = (RouteHandle.mirror st.nextId, mirrorAlloc st)) ∧
    (∀ (st : RouteState) (m : Nat), st._route = some m →
        useRoute false st = (RouteHandle.mirror m, st)) := by
  refine ⟨rfl, rfl, fun st => by simp [useRoute], fun st h => ?_, fun st m h => ?_⟩
  · constructor <;> simp [useRoute, mirrorAlloc, h]
  · simp [useRoute, h]

/-- Claim C9, witness at concrete states: a first legacy access allocates
the mirror and a later access returns the same mirror unchanged. -/
theorem useRoute_useRouter_resolution_witness :
    ((⟨none, 0, 0⟩ : RouteState)._route = none) ∧
    useRoute false ⟨none, 0, 0⟩ = (RouteHandle.mirror 0, ⟨some 0, 1, 1⟩) ∧
    useRoute false ⟨some 0, 1, 1⟩ = (RouteHandle.mirror 0, ⟨some 0, 1, 1⟩) :=
  ⟨rfl, (useRoute_useRouter_resolution.2.2.2.1 ⟨none, 0, 0⟩ rfl).1,
    useRoute_useRouter_resolution.2.2.2.2 ⟨some 0, 1, 1⟩ 0 rfl⟩

/-- Claim C10: on the client, any `navigateTo` call carrying the `open`
option opens a window on the computed path with the (defaulted) target and
the formatted window features, then returns a resolved promise; no
hypothesis about the path's protocol or the `external` option is needed, so
neither the external opt-in check nor the script-protocol check applies. -/
theorem navigateTo_open_window (env : NavEnv)
    (appAvailable flag ssrEvent : Bool) (toArg : Option RawLoc) (opts : NavOptions)
    (o : OpenOpts)
    (hopen : opts.openOpt = some o) :
    navigateTo env true appAvailable flag ssrEvent toArg opts
      = [Effect.windowOpen (toPathOf env (normTo toArg)) (o.target.getD ("_blank"))
           (formatFeatures (o.windowFeatures.getD [])),
         Effect.ret .promiseUnit] := by
  unfold navigateTo
  simp [hopen]

/-- Claim C10, witness at a concrete input: even a `javascript:` URL with no
`external` opt-in is opened, with lowercased feature formatting. -/
theorem navigateTo_open_window_witness :
    sampleNavOpen.external = false ∧
    navigateTo sampleEnv true true false false (some (.str ("javascript:alert(2)")))
        sampleNavOpen
      = [Effect.windowOpen ("javascript:alert(2)") ("_blank") ("popup=true, innerwidth=500"),
         Effect.ret .promiseUnit] :=
  ⟨rfl, by
    have h := navigateTo_open_window sampleEnv true false false
        (some (.str ("javascript:alert(2)"))) sampleNavOpen sampleOpenOpts rfl
    exact h.trans (by decide)⟩
